import Mathlib

/-!
Token lifecycle and session authentication of `app/jwt_auth.py`.

A shallow embedding of the JWT/session module of the `hse-atlas/backend`
repository, together with theorems settling the frozen claims about it.

Modelling conventions:

* Timestamps (`datetime.now(timezone.utc).timestamp()`, the `exp` claim) are
  integers (seconds since the epoch); Python's `int(...)` truncation on the
  already-integral differences is the identity.
* A JWT travels as a `Token`: either a well-signed encoding of a claim set
  (`Token.signed`) or a string that fails `jose.jwt.decode` structurally or
  by signature (`Token.malformed`).  The claim set `Claims` keeps exactly the
  payload fields the module reads: `sub`, `jti`, `exp`, `type`.
* The Redis instance behind `redis_client` (jwt_auth.py line 16) is an
  `RStore`: the `refresh_token:<jti>` namespace is the `active` association
  list (key, value = subject, ttl) and the `blacklist:<jti>` namespace is the
  `blacklist` association list (key, ttl).  Key construction
  `f"refresh_token:{jti}"` and parsing `key.split(":")[-1]` (line 133) are
  mutually inverse for the colon-free uuid4 ids minted at lines 38 and 55,
  so the embedding indexes both namespaces directly by the id.
* Every Redis command is a remote call that can fail; operations take an
  `up : Bool` flag where the claims need a failing store: `up = false` makes
  each attempted command raise (modelled as an explicit error result).
-/

/-- Result of `jose.jwt.decode`: `expired` is `ExpiredSignatureError`
(the payload carried an `exp` in the past), `invalid` is any other
`JWTError` (bad signature, malformed token). -/
inductive JwtErr where
  | expired
  | invalid
deriving DecidableEq, Repr

/-- The JWT payload fields read by `app/jwt_auth.py`: `payload.get("sub")`,
`payload.get("jti")`, `payload.get("exp")`, `payload.get("type")`. -/
structure Claims where
  sub : Option String
  jti : Option String
  exp : Option Int
  type : Option String
deriving DecidableEq, Repr

/-- A token string as seen by the module: either a well-signed encoding of a
claim set, or a string on which `jose.jwt.decode` raises a non-expiry
`JWTError` (malformed or bad signature). -/
inductive Token where
  | signed (payload : Claims)
  | malformed
deriving DecidableEq, Repr

/-- Python truthiness of an optional string (`if not x` in the source):
`None` and the empty string are falsy. -/
def pyTruthy : Option String → Bool
  | none => false
  | some s => !s.data.isEmpty

/-- The Redis state used by the module: the `refresh_token:<jti>` namespace
(`active`, entries `(jti, subject, ttl)`) and the `blacklist:<jti>` namespace
(`blacklist`, entries `(jti, ttl)`).  `SETEX` overwrites, so writes replace
any entry with the same key. -/
structure RStore where
  active : List (String × String × Int)
  blacklist : List (String × Int)
deriving DecidableEq, Repr

def RStore.empty : RStore := ⟨[], []⟩

/-- Redis `GET refresh_token:<j>` together with the entry's remaining TTL. -/
def RStore.getActiveEntry (st : RStore) (j : String) : Option (String × Int) :=
  (st.active.find? (fun e => e.1 == j)).map (fun e => e.2)

/-- Redis `GET refresh_token:<j>` (the stored subject id), as at line 131. -/
def RStore.getActive (st : RStore) (j : String) : Option String :=
  (st.getActiveEntry j).map (fun e => e.1)

/-- The TTL currently attached to `blacklist:<j>`, if the entry exists. -/
def RStore.getBlack (st : RStore) (j : String) : Option Int :=
  (st.blacklist.find? (fun e => e.1 == j)).map (fun e => e.2)

/-- Redis `EXISTS refresh_token:<j>` (lines 248 and 333). -/
def RStore.existsActive (st : RStore) (j : String) : Bool :=
  (st.getActiveEntry j).isSome

/-- Redis `EXISTS blacklist:<j>` (line 81). -/
def RStore.existsBlack (st : RStore) (j : String) : Bool :=
  (st.getBlack j).isSome

/-- Redis `SETEX refresh_token:<j> ttl sub` (the command built at line 69). -/
def RStore.setexActive (st : RStore) (j sub : String) (ttl : Int) : RStore :=
  { st with active := (j, sub, ttl) :: st.active.filter (fun e => !(e.1 == j)) }

/-- Redis `DELETE refresh_token:<j>` (lines 117 and 137). -/
def RStore.delActive (st : RStore) (j : String) : RStore :=
  { st with active := st.active.filter (fun e => !(e.1 == j)) }

/-- Redis `SETEX blacklist:<j> ttl "1"` (lines 113 and 135). -/
def RStore.setexBlack (st : RStore) (j : String) (ttl : Int) : RStore :=
  { st with blacklist := (j, ttl) :: st.blacklist.filter (fun e => !(e.1 == j)) }

/-- Config `ACCESS_TOKEN_EXPIRE_MINUTES` (config.py line 30, default). -/
def ACCESS_TOKEN_EXPIRE_MINUTES : Int := 15

/-- Config `REFRESH_TOKEN_EXPIRE_DAYS` (config.py line 31, default). -/
def REFRESH_TOKEN_EXPIRE_DAYS : Int := 30

/-- The payload assembled by `create_refresh_token` (jwt_auth.py lines
52-63): the caller-supplied `{"sub": sub}` dictionary extended with a fresh
`jti`, `exp = now + expires_delta` (default `REFRESH_TOKEN_EXPIRE_DAYS`
days), and `type = "refresh"`.  The fresh uuid4 of line 55 is the `jti`
argument; `expires_delta` is its total length in seconds. -/
def refreshClaims (sub jti : String) (expires_delta : Option Int) (now : Int) : Claims :=
  { sub := some sub
    jti := some jti
    exp := some (now + (match expires_delta with
      | some d => d
      | none => REFRESH_TOKEN_EXPIRE_DAYS * 86400))
    type := some "refresh" }

/-- Function `create_refresh_token` (jwt_auth.py lines 51-71).  The function is a
plain synchronous `def`, while `redis_client` (line 16) is a
`redis.asyncio` client, so the `redis_client.setex(f"refresh_token:{jti}",
expiry, to_encode["sub"])` expression at line 69 builds a coroutine object
that is never awaited anywhere: no command is ever sent to the store, and
the function returns the encoded token with the store unchanged.  The write
that the discarded coroutine would have performed is
`refreshTokenRegistration` below. -/
def create_refresh_token (sub jti : String) (expires_delta : Option Int) (now : Int)
    (st : RStore) : Token × RStore :=
  (Token.signed (refreshClaims sub jti expires_delta now), st)

/-- The store command constructed — but never executed — at jwt_auth.py
line 69: `SETEX refresh_token:<jti> expiry sub` with
`expiry = int(expires_delta.total_seconds()) if expires_delta else
REFRESH_TOKEN_EXPIRE_DAYS * 86400`. -/
def refreshTokenRegistration (sub jti : String) (expires_delta : Option Int)
    (st : RStore) : RStore :=
  st.setexActive jti sub (match expires_delta with
    | some d => d
    | none => REFRESH_TOKEN_EXPIRE_DAYS * 86400)

/-- Call `jose.jwt.decode(token, SECRET_KEY, algorithms=[ALGORITHM])`: signature
verification first (a malformed or tampered token raises `JWTError`), then
the registered-claim checks — with the claim sets this module encodes the
only applicable one is expiry: a present `exp` earlier than the current
time raises `ExpiredSignatureError`. -/
def jwtDecode (t : Token) (now : Int) : Except JwtErr Claims :=
  match t with
  | .malformed => .error .invalid
  | .signed payload =>
    match payload.exp with
    | some e => if e < now then .error .expired else .ok payload
    | none => .ok payload

/-- Result of `decode_token`: `revoked` is the HTTP 401 "Token has been
revoked" (line 82), `badCreds` the HTTP 401 "Could not validate
credentials" raised for any `JWTError` (line 90), and `storeFail` a Redis
exception escaping the function — the `try` at line 76 catches only
`JWTError`, so a failing `EXISTS` propagates to the caller. -/
inductive AuthErr where
  | revoked
  | badCreds
  | storeFail
deriving DecidableEq, Repr

/-- Function `decode_token` (jwt_auth.py lines 75-94): decode via the codec, then,
when the payload carries a truthy `jti` (`if jti and await
redis_client.exists(...)`, line 81), consult the blacklist; a blacklisted id
is rejected as revoked.  A payload without a `jti` (or with an empty-string
`jti`) skips the store entirely. -/
def decode_token (t : Token) (now : Int) (st : RStore) (up : Bool) : Except AuthErr Claims :=
  match jwtDecode t now with
  | .error _ => .error .badCreds
  | .ok payload =>
    match payload.jti with
    | none => .ok payload
    | some j =>
      if j.data.isEmpty then .ok payload
      else if up then
        if st.existsBlack j then .error .revoked else .ok payload
      else .error .storeFail

/-- Number of store commands `decode_token` submits: exactly one `EXISTS`
when the decode succeeds and the payload has a truthy `jti`, none
otherwise. -/
def decodeOps (t : Token) (now : Int) : Nat :=
  match jwtDecode t now with
  | .error _ => 0
  | .ok payload =>
    match payload.jti with
    | none => 0
    | some j => if j.data.isEmpty then 0 else 1

/-- The blacklist TTL computed by `revoke_token` (jwt_auth.py lines
108-110): `max(1, int(exp - now)) if exp else 3600`.  Python's `if exp`
tests truthiness, so both a missing `exp` and the integer `0` select the
one-hour fallback. -/
def revokeTTL (payload : Claims) (now : Int) : Int :=
  match payload.exp with
  | some e => if e = 0 then 3600 else max 1 (e - now)
  | none => 3600

/-- Function `revoke_token` (jwt_auth.py lines 98-121): decode the token (any
`JWTError` yields `False`, line 120), require a truthy `jti` (line 102),
write `blacklist:<jti>` with the remaining-lifetime TTL (line 113), and for
refresh tokens additionally delete `refresh_token:<jti>` (lines 116-117);
then report `True`. -/
def revoke_token (t : Token) (now : Int) (st : RStore) : Bool × RStore :=
  match jwtDecode t now with
  | .error _ => (false, st)
  | .ok payload =>
    match payload.jti with
    | none => (false, st)
    | some j =>
      if j.data.isEmpty then (false, st)
      else
        let st1 := st.setexBlack j (revokeTTL payload now)
        let st2 := if payload.type = some "refresh" then st1.delActive j else st1
        (true, st2)

/-- Number of store commands `revoke_token` submits: the blacklist `SETEX`
plus, for refresh tokens, the active-entry `DELETE`. -/
def revokeOps (t : Token) (now : Int) : Nat :=
  match jwtDecode t now with
  | .error _ => 0
  | .ok payload =>
    match payload.jti with
    | none => 0
    | some j =>
      if j.data.isEmpty then 0
      else if payload.type = some "refresh" then 2 else 1

/-- The scan loop body of `revoke_all_user_tokens` (jwt_auth.py lines
127-140), iterating over the snapshot of `refresh_token:*` keys: for each
key, `GET` its current value (line 131); when it equals `user_id`, write
`blacklist:<jti>` with the full refresh lifetime (line 135) and delete the
active entry (line 137).  A key whose entry has meanwhile vanished yields
`None`, which never equals the `user_id` string, so it is skipped. -/
def revokeAllScan (user_id : String) : List String → RStore → RStore
  | [], st => st
  | key :: rest, st =>
    match st.getActive key with
    | some user =>
      if user = user_id then
        revokeAllScan user_id rest
          ((st.setexBlack key (REFRESH_TOKEN_EXPIRE_DAYS * 86400)).delActive key)
      else revokeAllScan user_id rest st
    | none => revokeAllScan user_id rest st

/-- Function `revoke_all_user_tokens` (jwt_auth.py lines 125-142): a cursor-paginated
`SCAN` over `refresh_token:*` enumerating every key of the namespace; the
embedding feeds the full key listing to the loop body and, like the source,
returns `True` unconditionally. -/
def revoke_all_user_tokens (user_id : String) (st : RStore) : Bool × RStore :=
  (true, revokeAllScan user_id (st.active.map (fun e => e.1)) st)

/-- Python's `str.startswith`, used for every route classification in the
middleware. -/
def strStartsWith (s pre : String) : Bool :=
  pre.data.isPrefixOf s.data

/-- The route classification of the valid-access flow (jwt_auth.py lines
191-192): admin iff the path starts with `/api/v1/AuthService/admin` or
with `/projects/owner`. -/
def isAdminRouteAccessFlow (path : String) : Bool :=
  strStartsWith path "/api/v1/AuthService/admin" || strStartsWith path "/projects/owner"

/-- The route classification of the refresh flow (jwt_auth.py line 277):
admin iff the path starts with `/api/v1/AuthService/admin`. -/
def isAdminRouteRefreshFlow (path : String) : Bool :=
  strStartsWith path "/api/v1/AuthService/admin"

/-- The inbound request as consumed by `auth_middleware`: the four token
cookies, the `Authorization: Bearer` header value (already stripped of its
`"Bearer "` prefix, lines 154-156), and the URL path.  Cookie values are
modelled directly as tokens. -/
structure Req where
  adminsAccessCookie : Option Token
  usersAccessCookie : Option Token
  bearerHeader : Option Token
  adminsRefreshCookie : Option Token
  usersRefreshCookie : Option Token
  path : String

/-- The relational lookups the middleware performs (lines 195, 207, 280,
292): `select(AdminsBase).where(AdminsBase.id == int(user_id))` and the
`UsersBase` analogue, each returning at most one record.  The embedding
keys both tables by the subject string carried in the token (the minting
sites always store a decimal id, so `int(user_id)` is folded into the
lookup), and represents a found record by its id. -/
structure Db where
  admins : String → Option String
  users : String → Option String

/-- Observable result of one `auth_middleware` run: a resolved identity
(`granted`, the `request.state.user_type` tag and the record), the `None`
return for public routes (`anonymous`), an `HTTPException 401` raised to
the framework (`unauthorized`, with its `detail` string), or a Redis
exception escaping the function uncaught (`storeFailure` — neither
`except HTTPException` at line 221 nor `except (HTTPException, JWTError)`
at line 306 matches it, so it surfaces as a server error). -/
inductive MwOutcome where
  | granted (userType userId : String)
  | anonymous
  | unauthorized (detail : String)
  | storeFailure
deriving DecidableEq, Repr

/-- Whether the outcome is an HTTP 401 authentication rejection. -/
def MwOutcome.isUnauthorized : MwOutcome → Bool
  | .unauthorized _ => true
  | _ => false

/-- Whether the outcome grants access to an identity. -/
def MwOutcome.isGranted : MwOutcome → Bool
  | .granted _ _ => true
  | _ => false

/-- One `auth_middleware` run: its outcome, the store it leaves behind, and
the number of store commands it attempted (a failing command is counted and
aborts the run). -/
structure MwResult where
  outcome : MwOutcome
  store : RStore
  ops : Nat
deriving DecidableEq, Repr

/-- The handler at jwt_auth.py lines 306-314, reached when the refresh
branch raises `HTTPException` or `JWTError`: HTTP 401 "Invalid refresh
token. Please login again." on `/api/protected` paths, `None` otherwise. -/
def refreshRejected (req : Req) (st : RStore) (ops : Nat) : MwResult :=
  if strStartsWith req.path "/api/protected" then
    ⟨.unauthorized "Invalid refresh token. Please login again.", st, ops⟩
  else ⟨.anonymous, st, ops⟩

/-- The refresh branch of `auth_middleware` (jwt_auth.py lines 221-314),
entered when the access-token branch raised `HTTPException`.  It reads the
refresh cookie (admins before users, line 223), validates it via
`decode_token`, requires `type == "refresh"` (line 239), requires a truthy
`jti` whose `refresh_token:<jti>` entry exists (lines 247-253), requires a
truthy `sub` (lines 256-262), retires the token via `revoke_token`
(line 265), mints a new pair (lines 268-269 — `create_access_token` writes
nothing and `create_refresh_token` never executes its store write, and the
pair is surfaced through `request.state`, lines 273-274, outside this
embedding's observation), classifies the route (line 277) and resolves the
identity (lines 279-302).  `HTTPException`/`JWTError` along the way land in
`refreshRejected`; a Redis failure aborts the run uncaught. -/
def refreshFlow (req : Req) (db : Db) (st : RStore) (up : Bool) (now : Int)
    (opsSoFar : Nat) : MwResult :=
  match (req.adminsRefreshCookie).orElse (fun _ => req.usersRefreshCookie) with
  | none =>
    if strStartsWith req.path "/api/protected" then
      ⟨.unauthorized "Not authenticated", st, opsSoFar⟩
    else ⟨.anonymous, st, opsSoFar⟩
  | some rtok =>
    let ops1 := opsSoFar + decodeOps rtok now
    match decode_token rtok now st up with
    | .error .storeFail => ⟨.storeFailure, st, ops1⟩
    | .error _ => refreshRejected req st ops1
    | .ok rp =>
      if rp.type ≠ some "refresh" then refreshRejected req st ops1
      else
        match rp.jti with
        | none => refreshRejected req st ops1
        | some j =>
          if j.data.isEmpty then refreshRejected req st ops1
          else if !up then ⟨.storeFailure, st, ops1 + 1⟩
          else if !(st.existsActive j) then refreshRejected req st (ops1 + 1)
          else
            let ops2 := ops1 + 1
            if !(pyTruthy rp.sub) then refreshRejected req st ops2
            else
              let st2 := (revoke_token rtok now st).2
              let ops3 := ops2 + revokeOps rtok now
              let sub := rp.sub.getD ""
              if isAdminRouteRefreshFlow req.path then
                match db.admins sub with
                | none => refreshRejected req st2 ops3
                | some u => ⟨.granted "admin" u, st2, ops3⟩
              else
                match db.users sub with
                | none => refreshRejected req st2 ops3
                | some u => ⟨.granted "user" u, st2, ops3⟩

/-- Function `auth_middleware` (jwt_auth.py lines 146-314).  Credential extraction
(lines 150-156): the admins access cookie, then the users access cookie,
then the bearer header.  With no credential, `/api/protected` paths get
HTTP 401 "Not authenticated" and all others `None` (lines 158-166).
Otherwise the token is validated (`decode_token`), must have
`type == "access"` (line 174) and a truthy `sub` (line 183), and the
identity is resolved against the table selected by the access-flow route
classification (lines 190-217); a missing record raises `HTTPException`.
Every `HTTPException` of this branch is caught at line 221 and diverts into
the refresh flow; a Redis failure inside `decode_token` is not caught and
aborts the run. -/
def auth_middleware (req : Req) (db : Db) (st : RStore) (up : Bool) (now : Int) : MwResult :=
  match ((req.adminsAccessCookie).orElse (fun _ => req.usersAccessCookie)).orElse
      (fun _ => req.bearerHeader) with
  | none =>
    if strStartsWith req.path "/api/protected" then
      ⟨.unauthorized "Not authenticated", st, 0⟩
    else ⟨.anonymous, st, 0⟩
  | some tok =>
    let ops1 := decodeOps tok now
    match decode_token tok now st up with
    | .error .storeFail => ⟨.storeFailure, st, ops1⟩
    | .error _ => refreshFlow req db st up now ops1
    | .ok payload =>
      if payload.type ≠ some "access" then refreshFlow req db st up now ops1
      else if !(pyTruthy payload.sub) then refreshFlow req db st up now ops1
      else
        let sub := payload.sub.getD ""
        if isAdminRouteAccessFlow req.path then
          match db.admins sub with
          | none => refreshFlow req db st up now ops1
          | some u => ⟨.granted "admin" u, st, ops1⟩
        else
          match db.users sub with
          | none => refreshFlow req db st up now ops1
          | some u => ⟨.granted "user" u, st, ops1⟩

/-- One store command of the refresh-token lifecycle, as submitted by the
module: the active-entry registration built at line 69, the blacklist write
of lines 113/135, and the active-entry deletion of lines 117/137.  Blacklist
lookups are reads and do not change the state. -/
inductive StoreOp where
  | setActive (jti sub : String) (ttl : Int)
  | setBlack (jti : String) (ttl : Int)
  | delAct (jti : String)
deriving DecidableEq, Repr

def StoreOp.apply : StoreOp → RStore → RStore
  | .setActive j s t, st => st.setexActive j s t
  | .setBlack j t, st => st.setexBlack j t
  | .delAct j, st => st.delActive j

def runOps (ops : List StoreOp) (st : RStore) : RStore :=
  ops.foldl (fun s op => op.apply s) st

/-- The refresh-token lifecycle calls of the claim's step relation:
`issue` is `create_refresh_token`'s registration (line 69), `validate` is
`decode_token`'s read-only blacklist lookup (line 81), and `redeem` is the
pair of writes `revoke_token` performs on a refresh token — blacklist write
(line 113) followed by active-entry deletion (line 117); redemption in the
resolver (line 265) and explicit revocation both go through this pair. -/
inductive LifecycleCall where
  | issue (sub jti : String) (ttl : Int)
  | validate (jti : String)
  | redeem (jti : String) (ttl : Int)
deriving DecidableEq, Repr

/-- The store commands each lifecycle call submits, in program order. -/
def LifecycleCall.storeOps : LifecycleCall → List StoreOp
  | .issue sub jti ttl => [.setActive jti sub ttl]
  | .validate _ => []
  | .redeem jti ttl => [.setBlack jti ttl, .delAct jti]

/-- The full store-command trace of a call sequence. -/
def traceOps (calls : List LifecycleCall) : List StoreOp :=
  (calls.map LifecycleCall.storeOps).flatten

/-- The state reached from the empty store after the first `k` individual
store commands of a call sequence: the states of the claim's step relation,
one step per store operation. -/
def stateAfter (calls : List LifecycleCall) (k : Nat) : RStore :=
  runOps ((traceOps calls).take k) RStore.empty

/-- The state after running every call of the sequence to completion. -/
def runCalls (calls : List LifecycleCall) (st : RStore) : RStore :=
  calls.foldl (fun s c => runOps c.storeOps s) st

/-- A refresh token id is in at most one of {absent, active, blacklisted}:
no id has both an active entry and a blacklist entry. -/
def oneOfInvariant (st : RStore) : Prop :=
  ∀ j, ¬(st.existsActive j = true ∧ st.existsBlack j = true)

/-- Both namespaces hold the id at once. -/
def bothPresent (st : RStore) (j : String) : Bool :=
  st.existsActive j && st.existsBlack j

/-- Ids minted at issuance are collision-resistant uuid4 values (line 55):
along the call sequence, every issued id is fresh — in particular not
currently blacklisted. -/
def FreshIssues : RStore → List LifecycleCall → Prop
  | _, [] => True
  | st, c :: rest =>
    (match c with
     | .issue _ jti _ => st.existsBlack jti = false
     | _ => True) ∧ FreshIssues (runOps c.storeOps st) rest

theorem find?_filter_bne {α : Type} (l : List (String × α)) (j j' : String) (h : j' ≠ j) :
    (l.filter (fun e => !(e.1 == j))).find? (fun e => e.1 == j') =
      l.find? (fun e => e.1 == j') := by
  induction l with
  | nil => rfl
  | cons a l ih =>
    by_cases ha : a.1 = j
    · have h1 : (!(a.1 == j)) = false := by simp [ha]
      have h2 : (a.1 == j') = false := by
        simp only [beq_eq_false_iff_ne, ne_eq]
        intro hc
        exact h (hc ▸ ha)
      simp [List.filter_cons, h1, List.find?, h2, ih]
    · have h1 : (!(a.1 == j)) = true := by simp [ha]
      by_cases h2 : a.1 = j'
      · have h3 : (a.1 == j') = true := by simp [h2]
        simp [List.filter_cons, h1, List.find?, h3]
      · have h3 : (a.1 == j') = false := by simp [h2]
        simp [List.filter_cons, h1, List.find?, h3, ih]

theorem find?_filter_bne_self {α : Type} (l : List (String × α)) (j : String) :
    (l.filter (fun e => !(e.1 == j))).find? (fun e => e.1 == j) = none := by
  rw [List.find?_eq_none]
  intro e he
  have := (List.mem_filter.mp he).2
  simpa using this

theorem getBlack_setexBlack_self (st : RStore) (j : String) (t : Int) :
    (st.setexBlack j t).getBlack j = some t := by
  simp [RStore.setexBlack, RStore.getBlack, List.find?]

theorem getBlack_setexBlack_ne (st : RStore) (j j' : String) (t : Int) (h : j' ≠ j) :
    (st.setexBlack j t).getBlack j' = st.getBlack j' := by
  have h2 : (j == j') = false := by
    simp only [beq_eq_false_iff_ne, ne_eq]
    exact fun hc => h hc.symm
  simp [RStore.setexBlack, RStore.getBlack, List.find?, h2, find?_filter_bne _ _ _ h]

theorem getActiveEntry_setexBlack (st : RStore) (j j' : String) (t : Int) :
    (st.setexBlack j t).getActiveEntry j' = st.getActiveEntry j' := rfl

theorem getBlack_delActive (st : RStore) (j j' : String) :
    (st.delActive j).getBlack j' = st.getBlack j' := rfl

theorem getActiveEntry_delActive_self (st : RStore) (j : String) :
    (st.delActive j).getActiveEntry j = none := by
  simp [RStore.delActive, RStore.getActiveEntry, find?_filter_bne_self]

theorem getActiveEntry_delActive_ne (st : RStore) (j j' : String) (h : j' ≠ j) :
    (st.delActive j).getActiveEntry j' = st.getActiveEntry j' := by
  simp [RStore.delActive, RStore.getActiveEntry, find?_filter_bne _ _ _ h]

theorem getActiveEntry_setexActive_self (st : RStore) (j s : String) (t : Int) :
    (st.setexActive j s t).getActiveEntry j = some (s, t) := by
  simp [RStore.setexActive, RStore.getActiveEntry, List.find?]

theorem getActiveEntry_setexActive_ne (st : RStore) (j j' s : String) (t : Int) (h : j' ≠ j) :
    (st.setexActive j s t).getActiveEntry j' = st.getActiveEntry j' := by
  have h2 : (j == j') = false := by
    simp only [beq_eq_false_iff_ne, ne_eq]
    exact fun hc => h hc.symm
  simp [RStore.setexActive, RStore.getActiveEntry, List.find?, h2, find?_filter_bne _ _ _ h]

theorem getBlack_setexActive (st : RStore) (j j' s : String) (t : Int) :
    (st.setexActive j s t).getBlack j' = st.getBlack j' := rfl

/-- C1: the claim says `create_refresh_token` writes the active-refresh
entry `refresh_token:<jti> -> sub` into the store before returning, failing
the whole operation when the write fails.  The source never executes that
write: the function is synchronous and discards the un-awaited `setex`
coroutine of line 69, so for every input the token is returned while the
store is left exactly as it was — in particular, issuance against the empty
store leaves the id unregistered.  (The module's own comment at lines 66-67
and the redemption gates at lines 248 and 333, which require the entry to
exist, show the write was intended: a code bug.) -/
theorem create_refresh_token_returns_unregistered (sub jti : String) (d : Option Int)
    (now : Int) (st : RStore) :
    create_refresh_token sub jti d now st = (Token.signed (refreshClaims sub jti d now), st) ∧
    ((create_refresh_token sub jti d now RStore.empty).2).existsActive jti = false :=
  ⟨rfl, rfl⟩

/-- C5: issuing a refresh token for subject `S` and immediately validating
it succeeds, and the returned claims carry subject `S` and kind refresh —
provided the freshly minted id is not already blacklisted (uuid4
collision-freedom) and the requested lifetime is nonnegative. -/
theorem issue_then_validate_identifies_subject (S jti : String) (d : Option Int) (now : Int)
    (st : RStore) (hfresh : st.existsBlack jti = false)
    (hd : ∀ x, d = some x → 0 ≤ x) :
    decode_token (create_refresh_token S jti d now st).1 now
        ((create_refresh_token S jti d now st).2) true = .ok (refreshClaims S jti d now) ∧
    (refreshClaims S jti d now).sub = some S ∧
    (refreshClaims S jti d now).type = some "refresh" := by
  refine ⟨?_, rfl, rfl⟩
  cases d with
  | none =>
    have hexp : ¬ (now + REFRESH_TOKEN_EXPIRE_DAYS * 86400 < now) := by
      norm_num [REFRESH_TOKEN_EXPIRE_DAYS]
    simp [create_refresh_token, decode_token, jwtDecode, refreshClaims, hexp, hfresh]
  | some x =>
    have hx : 0 ≤ x := hd x rfl
    have hexp : ¬ (now + x < now) := by omega
    simp [create_refresh_token, decode_token, jwtDecode, refreshClaims, hexp, hfresh]

theorem issue_then_validate_identifies_subject_witness :
    RStore.empty.existsBlack "a" = false ∧
    (decode_token (create_refresh_token "7" "a" none 0 RStore.empty).1 0
        ((create_refresh_token "7" "a" none 0 RStore.empty).2) true
        = .ok (refreshClaims "7" "a" none 0) ∧
    (refreshClaims "7" "a" none 0).sub = some "7" ∧
    (refreshClaims "7" "a" none 0).type = some "refresh") :=
  ⟨by decide, issue_then_validate_identifies_subject "7" "a" none 0 RStore.empty (by decide)
    (fun x hx => nomatch hx)⟩

/-- C6: for a token that decodes successfully with a truthy id, `revoke_token`
reports success and writes `blacklist:<id>` with TTL `max(1, exp - now)`
(one hour when the claims carry no `exp`), and for refresh-kind tokens
additionally deletes the active entry — an unconditional `DELETE`, so it
succeeds when the entry is already absent.  (`0 < now` pins the clock to the
post-epoch reality of `datetime.now().timestamp()`, which makes the code's
Python-truthiness test `if exp` agree with the claim's "no exp present".) -/
theorem revoke_token_blacklists_with_remaining_ttl (p : Claims) (j : String) (now : Int)
    (st : RStore) (hdec : jwtDecode (Token.signed p) now = .ok p)
    (hj : p.jti = some j) (hne : j.data.isEmpty = false) (hnow : 0 < now) :
    revoke_token (Token.signed p) now st =
      (true,
        let ttl : Int := match p.exp with
          | some e => max 1 (e - now)
          | none => 3600
        let st1 := st.setexBlack j ttl
        if p.type = some "refresh" then st1.delActive j else st1) := by
  have hexp : ∀ e, p.exp = some e → ¬ e < now := by
    intro e he hlt
    simp [jwtDecode, he, hlt] at hdec
  have httl : revokeTTL p now = (match p.exp with
      | some e => max 1 (e - now)
      | none => (3600 : Int)) := by
    unfold revokeTTL
    cases hpe : p.exp with
    | none => rfl
    | some e =>
      have h1 : ¬ e < now := hexp e hpe
      have h2 : e ≠ 0 := by omega
      simp [h2]
  simp only [revoke_token, hdec, hj, hne, Bool.false_eq_true, if_false, httl]

theorem revoke_token_blacklists_with_remaining_ttl_witness :
    jwtDecode (Token.signed ⟨some "7", some "a", some 100, some "refresh"⟩) 1
        = .ok ⟨some "7", some "a", some 100, some "refresh"⟩ ∧
    (⟨some "7", some "a", some 100, some "refresh"⟩ : Claims).jti = some "a" ∧
    "a".data.isEmpty = false ∧ (0 : Int) < 1 ∧
    revoke_token (Token.signed ⟨some "7", some "a", some 100, some "refresh"⟩) 1 RStore.empty =
      (true,
        let ttl : Int := match (⟨some "7", some "a", some 100, some "refresh"⟩ : Claims).exp with
          | some e => max 1 (e - 1)
          | none => 3600
        let st1 := RStore.empty.setexBlack "a" ttl
        if (⟨some "7", some "a", some 100, some "refresh"⟩ : Claims).type = some "refresh"
          then st1.delActive "a" else st1) :=
  ⟨rfl, rfl, rfl, by decide,
    revoke_token_blacklists_with_remaining_ttl _ "a" 1 RStore.empty rfl rfl rfl (by decide)⟩

/-- C7: a token on which the codec raises (malformed or bad signature, and
likewise an expired one) cannot be revoked: `revoke_token` reports `false`
without raising, and the store is left untouched — no blacklist write, no
active-entry deletion. -/
theorem revoke_token_decode_failure_reports_false (t : Token) (now : Int) (st : RStore)
    (e : JwtErr) (h : jwtDecode t now = .error e) :
    revoke_token t now st = (false, st) := by
  simp [revoke_token, h]

theorem revoke_token_decode_failure_reports_false_witness :
    jwtDecode Token.malformed 0 = .error .invalid ∧
    revoke_token Token.malformed 0 RStore.empty = (false, RStore.empty) :=
  ⟨rfl, revoke_token_decode_failure_reports_false Token.malformed 0 RStore.empty .invalid rfl⟩

/-- C8: a token whose `exp` lies in the past fails inside the codec with
`ExpiredSignatureError`, which `decode_token` surfaces as the generic 401
(`badCreds`) — for every store state and even with the store unreachable,
because the blacklist lookup of line 81 is never reached; in particular the
result is never the revoked rejection. -/
theorem expired_token_fails_expired_never_revoked (p : Claims) (e : Int) (now : Int)
    (st : RStore) (up : Bool) (hexp : p.exp = some e) (hlt : e < now) :
    jwtDecode (Token.signed p) now = .error .expired ∧
    decode_token (Token.signed p) now st up = .error .badCreds := by
  have h1 : jwtDecode (Token.signed p) now = .error .expired := by
    simp [jwtDecode, hexp, hlt]
  exact ⟨h1, by simp [decode_token, h1]⟩

theorem expired_token_fails_expired_never_revoked_witness :
    (⟨some "7", some "a", some 5, some "access"⟩ : Claims).exp = some 5 ∧ (5 : Int) < 10 ∧
    (jwtDecode (Token.signed ⟨some "7", some "a", some 5, some "access"⟩) 10
        = .error .expired ∧
      decode_token (Token.signed ⟨some "7", some "a", some 5, some "access"⟩) 10
        (RStore.empty.setexBlack "a" 50) true = .error .badCreds) :=
  ⟨rfl, by decide,
    expired_token_fails_expired_never_revoked ⟨some "7", some "a", some 5, some "access"⟩ 5 10
      (RStore.empty.setexBlack "a" 50) true rfl (by decide)⟩

/-- C10: a well-signed, unexpired token whose claims carry no `jti` passes
validation for every store state — even with the store unreachable, since
the blacklist lookup is skipped — and can never be revoked: `revoke_token`
reports `false` and leaves every store state unchanged. -/
theorem no_jti_always_accepted_never_revocable (p : Claims) (now : Int) (st : RStore)
    (up : Bool) (hjti : p.jti = none) (hdec : jwtDecode (Token.signed p) now = .ok p) :
    decode_token (Token.signed p) now st up = .ok p ∧
    revoke_token (Token.signed p) now st = (false, st) :=
  ⟨by simp [decode_token, hdec, hjti], by simp [revoke_token, hdec, hjti]⟩

theorem no_jti_always_accepted_never_revocable_witness :
    (⟨some "7", none, some 100, some "access"⟩ : Claims).jti = none ∧
    jwtDecode (Token.signed ⟨some "7", none, some 100, some "access"⟩) 0
      = .ok ⟨some "7", none, some 100, some "access"⟩ ∧
    (decode_token (Token.signed ⟨some "7", none, some 100, some "access"⟩) 0
        (RStore.empty.setexBlack "x" 50) false
        = .ok ⟨some "7", none, some 100, some "access"⟩ ∧
      revoke_token (Token.signed ⟨some "7", none, some 100, some "access"⟩) 0
        (RStore.empty.setexBlack "x" 50)
        = (false, RStore.empty.setexBlack "x" 50)) :=
  ⟨rfl, rfl,
    no_jti_always_accepted_never_revocable ⟨some "7", none, some 100, some "access"⟩ 0
      (RStore.empty.setexBlack "x" 50) false rfl rfl⟩

/-- C9 counterexample: the two route classifications of `auth_middleware`
are not equal as functions of the path — on `/projects/owner` the
valid-access flow (lines 191-192) classifies the request as an admin route
while the refresh flow (line 277) does not. -/
theorem route_classifiers_disagree_on_owner_path :
    isAdminRouteAccessFlow "/projects/owner" = true ∧
    isAdminRouteRefreshFlow "/projects/owner" = false :=
  ⟨by decide, by decide⟩

/-- C9 amended: the refresh-flow classification omits only the
`/projects/owner` prefix — on every path that does not start with
`/projects/owner`, the two flows select the same identity-class table. -/
theorem route_classifiers_agree_off_owner_routes (path : String)
    (h : strStartsWith path "/projects/owner" = false) :
    isAdminRouteRefreshFlow path = isAdminRouteAccessFlow path := by
  simp [isAdminRouteAccessFlow, isAdminRouteRefreshFlow, h]

theorem route_classifiers_agree_off_owner_routes_witness :
    strStartsWith "/api/v1/AuthService/admin/list" "/projects/owner" = false ∧
    isAdminRouteRefreshFlow "/api/v1/AuthService/admin/list"
      = isAdminRouteAccessFlow "/api/v1/AuthService/admin/list" :=
  ⟨by decide, route_classifiers_agree_off_owner_routes "/api/v1/AuthService/admin/list" (by decide)⟩

/-- Coherence of the step relation with `revoke_token`: on a decodable
refresh token with truthy id `j`, the store effect of `revoke_token` is
exactly the two-command `redeem` step sequence — blacklist write, then
active-entry deletion. -/
theorem redeem_matches_revoke_token (p : Claims) (j : String) (now : Int) (st : RStore)
    (hdec : jwtDecode (Token.signed p) now = .ok p) (hj : p.jti = some j)
    (hne : j.data.isEmpty = false) (hty : p.type = some "refresh") :
    (revoke_token (Token.signed p) now st).2
      = runOps (LifecycleCall.redeem j (revokeTTL p now)).storeOps st := by
  simp [revoke_token, hdec, hj, hne, hty, runOps, LifecycleCall.storeOps, StoreOp.apply]

/-- C2 counterexample: at the granularity the claim fixes — one individual
store operation per step — the exclusivity invariant fails: issuing id "j"
and then redeeming it reaches, after the second store operation (the
blacklist write of line 113, before the deletion of line 117), a state in
which `refresh_token:j` and `blacklist:j` both exist. -/
theorem transient_state_has_both_entries :
    bothPresent
      (stateAfter [LifecycleCall.issue "7" "j" 60, LifecycleCall.redeem "j" 60] 2) "j"
      = true := by decide

/-- Step preservation: each complete lifecycle call keeps the exclusivity
invariant, provided an issued id is not currently blacklisted. -/
theorem lifecycle_step_invariant (c : LifecycleCall) (st : RStore)
    (hinv : oneOfInvariant st)
    (hfresh : match c with
      | .issue _ jti _ => st.existsBlack jti = false
      | _ => True) :
    oneOfInvariant (runOps c.storeOps st) := by
  cases c with
  | validate j => exact hinv
  | issue s j t =>
    intro j' hj'
    by_cases h : j' = j
    · subst h
      have hb : (runOps (LifecycleCall.issue s j' t).storeOps st).existsBlack j'
          = st.existsBlack j' := rfl
      rw [hb] at hj'
      rw [hfresh] at hj'
      exact Bool.false_ne_true hj'.2
    · have ha : (runOps (LifecycleCall.issue s j t).storeOps st).existsActive j'
          = st.existsActive j' := by
        show ((st.setexActive j s t).getActiveEntry j').isSome = _
        rw [getActiveEntry_setexActive_ne st j j' s t h]
        rfl
      rw [ha] at hj'
      exact hinv j' hj'
  | redeem j t =>
    intro j' hj'
    by_cases h : j' = j
    · subst h
      have ha : (runOps (LifecycleCall.redeem j' t).storeOps st).existsActive j' = false := by
        show (((st.setexBlack j' t).delActive j').getActiveEntry j').isSome = false
        rw [getActiveEntry_delActive_self]
        rfl
      rw [ha] at hj'
      exact Bool.false_ne_true hj'.1
    · have ha : (runOps (LifecycleCall.redeem j t).storeOps st).existsActive j'
          = st.existsActive j' := by
        show (((st.setexBlack j t).delActive j).getActiveEntry j').isSome = _
        rw [getActiveEntry_delActive_ne _ _ _ h, getActiveEntry_setexBlack]
        rfl
      have hb : (runOps (LifecycleCall.redeem j t).storeOps st).existsBlack j'
          = st.existsBlack j' := by
        show (((st.setexBlack j t).delActive j).getBlack j').isSome = _
        rw [getBlack_delActive, getBlack_setexBlack_ne _ _ _ _ h]
        rfl
      rw [ha, hb] at hj'
      exact hinv j' hj'

/-- C2 amended: the exclusivity invariant does hold at lifecycle-call
boundaries — from any state satisfying it, any sequence of complete
issue/validate/redeem calls whose issued ids are fresh ends in a state
satisfying it, and a completed redemption leaves the id blacklisted and not
active.  It fails only at the claim's finer single-store-operation
granularity, through the transient state between the blacklist write
(line 113) and the active-entry deletion (line 117): redemption is
blacklist-then-delete, not atomic. -/
theorem one_of_invariant_at_call_boundaries (calls : List LifecycleCall) (st : RStore)
    (hinv : oneOfInvariant st) (hfresh : FreshIssues st calls) :
    oneOfInvariant (runCalls calls st) := by
  induction calls generalizing st with
  | nil => exact hinv
  | cons c rest ih =>
    exact ih (runOps c.storeOps st) (lifecycle_step_invariant c st hinv hfresh.1) hfresh.2

theorem one_of_invariant_at_call_boundaries_witness :
    oneOfInvariant RStore.empty ∧
    FreshIssues RStore.empty
      [LifecycleCall.issue "7" "a" 60, LifecycleCall.redeem "a" 60,
        LifecycleCall.issue "7" "b" 60] ∧
    oneOfInvariant (runCalls
      [LifecycleCall.issue "7" "a" 60, LifecycleCall.redeem "a" 60,
        LifecycleCall.issue "7" "b" 60] RStore.empty) := by
  have hinv : oneOfInvariant RStore.empty := by
    intro j h
    exact Bool.false_ne_true h.1
  have hfresh : FreshIssues RStore.empty
      [LifecycleCall.issue "7" "a" 60, LifecycleCall.redeem "a" 60,
        LifecycleCall.issue "7" "b" 60] :=
    ⟨by decide, trivial, by decide, trivial⟩
  exact ⟨hinv, hfresh, one_of_invariant_at_call_boundaries _ RStore.empty hinv hfresh⟩

theorem refreshRejected_ops (req : Req) (st : RStore) (n : Nat) :
    (refreshRejected req st n).ops = n := by
  unfold refreshRejected
  split <;> rfl

theorem decode_token_down_ne_revoked (t : Token) (now : Int) (st : RStore) :
    decode_token t now st false ≠ .error .revoked := by
  unfold decode_token
  cases hw : jwtDecode t now with
  | error e => simp
  | ok p =>
    cases hj : p.jti with
    | none => simp [hj]
    | some j => by_cases he : j.data.isEmpty <;> simp [hj, he]

theorem decode_token_down_badCreds_ops (t : Token) (now : Int) (st : RStore)
    (h : decode_token t now st false = .error .badCreds) : decodeOps t now = 0 := by
  unfold decode_token at h
  unfold decodeOps
  cases hw : jwtDecode t now with
  | error e => rfl
  | ok p =>
    rw [hw] at h
    cases hj : p.jti with
    | none => simp [hw, hj]
    | some j =>
      by_cases he : j.data.isEmpty
      · simp [hw, hj, he]
      · simp [hj, he] at h

theorem decode_token_down_ok_jti (t : Token) (now : Int) (st : RStore) (p : Claims)
    (h : decode_token t now st false = .ok p) : decodeOps t now = 0 := by
  unfold decode_token at h
  unfold decodeOps
  cases hw : jwtDecode t now with
  | error e => rfl
  | ok q =>
    rw [hw] at h
    cases hj : q.jti with
    | none => simp [hw, hj]
    | some j =>
      by_cases he : j.data.isEmpty
      · simp [hw, hj, he]
      · simp [hj, he] at h

theorem refreshFlow_down (req : Req) (db : Db) (st : RStore) (now : Int) (ops0 : Nat) :
    (refreshFlow req db st false now ops0).outcome = .storeFailure ∨
    (refreshFlow req db st false now ops0).ops = ops0 := by
  cases hro : (req.adminsRefreshCookie).orElse (fun x => req.usersRefreshCookie) with
  | none =>
    right
    by_cases hp : strStartsWith req.path "/api/protected" <;>
      simp [refreshFlow, hro, hp]
  | some rtok =>
    cases hd : decode_token rtok now st false with
    | error e =>
      cases e with
      | storeFail =>
        left
        simp [refreshFlow, hro, hd]
      | revoked => exact absurd hd (decode_token_down_ne_revoked _ _ _)
      | badCreds =>
        right
        have h0 := decode_token_down_badCreds_ops rtok now st hd
        simp [refreshFlow, hro, hd, h0, refreshRejected_ops]
    | ok rp =>
      have h0 := decode_token_down_ok_jti rtok now st rp hd
      by_cases hty : rp.type = some "refresh"
      · cases hj : rp.jti with
        | none =>
          right
          simp [refreshFlow, hro, hd, h0, hty, hj, refreshRejected_ops]
        | some j =>
          by_cases he : j.data.isEmpty
          · right
            simp [refreshFlow, hro, hd, h0, hty, hj, he, refreshRejected_ops]
          · left
            simp [refreshFlow, hro, hd, hty, hj, he]
      · right
        simp [refreshFlow, hro, hd, h0, hty, refreshRejected_ops]

theorem auth_middleware_down (req : Req) (db : Db) (st : RStore) (now : Int) :
    (auth_middleware req db st false now).outcome = .storeFailure ∨
    (auth_middleware req db st false now).ops = 0 := by
  cases hat : ((req.adminsAccessCookie).orElse (fun x => req.usersAccessCookie)).orElse
      (fun x => req.bearerHeader) with
  | none =>
    right
    by_cases hp : strStartsWith req.path "/api/protected" <;>
      simp [auth_middleware, hat, hp]
  | some tok =>
    cases hd : decode_token tok now st false with
    | error e =>
      cases e with
      | storeFail =>
        left
        simp [auth_middleware, hat, hd]
      | revoked => exact absurd hd (decode_token_down_ne_revoked _ _ _)
      | badCreds =>
        have h0 := decode_token_down_badCreds_ops tok now st hd
        have hrf := refreshFlow_down req db st now 0
        simpa [auth_middleware, hat, hd, h0] using hrf
    | ok payload =>
      have h0 := decode_token_down_ok_jti tok now st payload hd
      by_cases hty : payload.type = some "access"
      · by_cases hsub : pyTruthy payload.sub
        · by_cases hroute : isAdminRouteAccessFlow req.path
          · cases hadm : db.admins (payload.sub.getD "") with
            | none =>
              have hrf := refreshFlow_down req db st now 0
              simpa [auth_middleware, hat, hd, h0, hty, hsub, hroute, hadm] using hrf
            | some u =>
              right
              simp [auth_middleware, hat, hd, h0, hty, hsub, hroute, hadm]
          · cases husr : db.users (payload.sub.getD "") with
            | none =>
              have hrf := refreshFlow_down req db st now 0
              simpa [auth_middleware, hat, hd, h0, hty, hsub, hroute, husr] using hrf
            | some u =>
              right
              simp [auth_middleware, hat, hd, h0, hty, hsub, hroute, husr]
        · have hrf := refreshFlow_down req db st now 0
          simpa [auth_middleware, hat, hd, h0, hty, hsub] using hrf
      · have hrf := refreshFlow_down req db st now 0
        simpa [auth_middleware, hat, hd, h0, hty] using hrf

/-- C3 counterexample: a request presenting a well-signed access token
whose blacklist lookup hits an unreachable store does not end in an
authentication rejection — the Redis exception escapes `decode_token`
(whose `except` clause catches only `JWTError`) and `auth_middleware`
(whose handlers catch only `HTTPException`/`JWTError`), so the resolver's
result is the uncaught store error (an HTTP 500 at the framework boundary),
not the claimed Unauthenticated. -/
theorem store_failure_escapes_as_server_error :
    (auth_middleware
      ⟨some (Token.signed ⟨some "1", some "a", some 100, some "access"⟩),
        none, none, none, none, "/api/protected/resource"⟩
      ⟨fun _ => none, fun _ => none⟩ RStore.empty false 0).outcome = .storeFailure ∧
    (auth_middleware
      ⟨some (Token.signed ⟨some "1", some "a", some 100, some "access"⟩),
        none, none, none, none, "/api/protected/resource"⟩
      ⟨fun _ => none, fun _ => none⟩ RStore.empty false 0).ops = 1 ∧
    MwOutcome.storeFailure.isUnauthorized = false ∧
    MwOutcome.storeFailure.isGranted = false :=
  ⟨rfl, rfl, rfl, rfl⟩

/-- C3 amended: when the Revocation Store is failing, any session
resolution that invokes at least one store operation ends with the store
error escaping `auth_middleware` uncaught — by construction of
`MwOutcome.storeFailure` neither access granted nor any HTTP 401
authentication rejection; the failure surfaces as a server error rather
than the claimed Unauthenticated. -/
theorem store_failure_never_grants_and_never_rejects_as_auth (req : Req) (db : Db)
    (st : RStore) (now : Int)
    (h : 0 < (auth_middleware req db st false now).ops) :
    (auth_middleware req db st false now).outcome = .storeFailure := by
  rcases auth_middleware_down req db st now with h1 | h1
  · exact h1
  · omega

theorem store_failure_never_grants_and_never_rejects_as_auth_witness :
    0 < (auth_middleware
      ⟨none, some (Token.signed ⟨some "2", some "b", some 50, some "access"⟩),
        none, none, none, "/projects/5"⟩
      ⟨fun _ => none, fun _ => none⟩ RStore.empty false 7).ops ∧
    (auth_middleware
      ⟨none, some (Token.signed ⟨some "2", some "b", some 50, some "access"⟩),
        none, none, none, "/projects/5"⟩
      ⟨fun _ => none, fun _ => none⟩ RStore.empty false 7).outcome = .storeFailure :=
  ⟨by decide,
    store_failure_never_grants_and_never_rejects_as_auth
      ⟨none, some (Token.signed ⟨some "2", some "b", some 50, some "access"⟩),
        none, none, none, "/projects/5"⟩
      ⟨fun _ => none, fun _ => none⟩ RStore.empty 7 (by decide)⟩

theorem getActive_blackdel_ne (st : RStore) (k j : String) (t : Int) (h : j ≠ k) :
    ((st.setexBlack k t).delActive k).getActive j = st.getActive j := by
  unfold RStore.getActive
  rw [getActiveEntry_delActive_ne _ _ _ h, getActiveEntry_setexBlack]

theorem getActiveEntry_blackdel_ne (st : RStore) (k j : String) (t : Int) (h : j ≠ k) :
    ((st.setexBlack k t).delActive k).getActiveEntry j = st.getActiveEntry j := by
  rw [getActiveEntry_delActive_ne _ _ _ h, getActiveEntry_setexBlack]

theorem getBlack_blackdel_ne (st : RStore) (k j : String) (t : Int) (h : j ≠ k) :
    ((st.setexBlack k t).delActive k).getBlack j = st.getBlack j := by
  rw [getBlack_delActive, getBlack_setexBlack_ne _ _ _ _ h]

theorem getActive_blackdel_self (st : RStore) (k : String) (t : Int) :
    ((st.setexBlack k t).delActive k).getActive k = none := by
  unfold RStore.getActive
  rw [getActiveEntry_delActive_self]
  rfl

theorem getBlack_blackdel_self (st : RStore) (k : String) (t : Int) :
    ((st.setexBlack k t).delActive k).getBlack k = some t := by
  rw [getBlack_delActive, getBlack_setexBlack_self]

theorem revokeAllScan_inactive (S j : String) (K : List String) :
    ∀ st : RStore, st.getActive j = none →
    (revokeAllScan S K st).getActive j = none ∧
    (revokeAllScan S K st).getBlack j = st.getBlack j := by
  induction K with
  | nil => exact fun st hj => ⟨hj, rfl⟩
  | cons k K ih =>
    intro st hj
    cases hk : st.getActive k with
    | none => simpa [revokeAllScan, hk] using ih st hj
    | some u =>
      by_cases hu : u = S
      · have hjk : j ≠ k := fun h => by rw [h, hk] at hj; exact Option.noConfusion hj
        have h1 : ((st.setexBlack k (REFRESH_TOKEN_EXPIRE_DAYS * 86400)).delActive k).getActive j
            = none := by rw [getActive_blackdel_ne _ _ _ _ hjk]; exact hj
        have h2 := ih _ h1
        rw [getBlack_blackdel_ne _ _ _ _ hjk] at h2
        simpa [revokeAllScan, hk, hu] using h2
      · simpa [revokeAllScan, hk, hu] using ih st hj

theorem revokeAllScan_other_subject (S j v : String) (hv : v ≠ S) (K : List String) :
    ∀ st : RStore, st.getActive j = some v →
    (revokeAllScan S K st).getActiveEntry j = st.getActiveEntry j ∧
    (revokeAllScan S K st).getBlack j = st.getBlack j := by
  induction K with
  | nil => exact fun st hj => ⟨rfl, rfl⟩
  | cons k K ih =>
    intro st hj
    cases hk : st.getActive k with
    | none => simpa [revokeAllScan, hk] using ih st hj
    | some u =>
      by_cases hu : u = S
      · have hjk : j ≠ k := by
          intro h
          rw [← h] at hk
          rw [hj] at hk
          exact hv ((Option.some.inj hk).trans hu)
        have hj1 : ((st.setexBlack k (REFRESH_TOKEN_EXPIRE_DAYS * 86400)).delActive k).getActive j
            = some v := by rw [getActive_blackdel_ne _ _ _ _ hjk]; exact hj
        have h2 := ih _ hj1
        rw [getActiveEntry_blackdel_ne _ _ _ _ hjk, getBlack_blackdel_ne _ _ _ _ hjk] at h2
        simpa [revokeAllScan, hk, hu] using h2
      · simpa [revokeAllScan, hk, hu] using ih st hj

theorem revokeAllScan_revokes (S j : String) (K : List String) :
    ∀ st : RStore, st.getActive j = some S → j ∈ K →
    (revokeAllScan S K st).getActive j = none ∧
    (revokeAllScan S K st).getBlack j = some (REFRESH_TOKEN_EXPIRE_DAYS * 86400) := by
  induction K with
  | nil => exact fun st hj hm => absurd hm (List.not_mem_nil j)
  | cons k K ih =>
    intro st hj hm
    by_cases hjk : j = k
    · subst hjk
      have h1 := getActive_blackdel_self st j (REFRESH_TOKEN_EXPIRE_DAYS * 86400)
      have h2 := revokeAllScan_inactive S j K _ h1
      rw [getBlack_blackdel_self] at h2
      simpa [revokeAllScan, hj] using h2
    · have hm' : j ∈ K := by
        cases List.mem_cons.mp hm with
        | inl h => exact absurd h hjk
        | inr h => exact h
      cases hk : st.getActive k with
      | none => simpa [revokeAllScan, hk] using ih st hj hm'
      | some u =>
        by_cases hu : u = S
        · have hj1 : ((st.setexBlack k
              (REFRESH_TOKEN_EXPIRE_DAYS * 86400)).delActive k).getActive j = some S := by
            rw [getActive_blackdel_ne _ _ _ _ (fun h => hjk h)]; exact hj
          simpa [revokeAllScan, hk, hu] using ih _ hj1 hm'
        · simpa [revokeAllScan, hk, hu] using ih st hj hm'

theorem getActive_mem_keys (st : RStore) (j v : String) (h : st.getActive j = some v) :
    j ∈ st.active.map (fun e => e.1) := by
  unfold RStore.getActive RStore.getActiveEntry at h
  cases hf : st.active.find? (fun e => e.1 == j) with
  | none => rw [hf] at h; simp at h
  | some e =>
    have he1 := List.find?_some hf
    have he2 : e ∈ st.active := List.mem_of_find?_eq_some hf
    have he3 : e.1 = j := by simpa using he1
    rw [← he3]
    exact List.mem_map_of_mem _ he2

theorem jwtDecode_signed_ok (p q : Claims) (now : Int)
    (h : jwtDecode (Token.signed p) now = .ok q) : q = p := by
  cases hpe : p.exp with
  | none =>
    simp [jwtDecode, hpe] at h
    exact h.symm
  | some e =>
    by_cases hl : e < now
    · simp [jwtDecode, hpe, hl] at h
    · simp [jwtDecode, hpe, hl] at h
      exact h.symm

/-- C4: after `revoke_all_user_tokens S`, every active-refresh entry whose
value is `S` has been deleted and its id blacklisted with TTL equal to the
full refresh-token lifetime (`REFRESH_TOKEN_EXPIRE_DAYS * 86400` seconds),
so any refresh token previously issued to `S` (a decodable token whose
truthy id is one of `S`'s active entries) now fails validation as revoked;
every active-refresh entry of any other subject is unchanged — value, TTL
and blacklist status — so validation of other subjects' tokens is
unaffected. -/
theorem revoke_all_user_tokens_spec (S : String) (st : RStore) :
    (revoke_all_user_tokens S st).1 = true ∧
    (∀ j, st.getActive j = some S →
      (revoke_all_user_tokens S st).2.getActive j = none ∧
      (revoke_all_user_tokens S st).2.getBlack j
        = some (REFRESH_TOKEN_EXPIRE_DAYS * 86400)) ∧
    (∀ j v, st.getActive j = some v → v ≠ S →
      (revoke_all_user_tokens S st).2.getActiveEntry j = st.getActiveEntry j ∧
      (revoke_all_user_tokens S st).2.getBlack j = st.getBlack j) ∧
    (∀ (p : Claims) (now : Int) (j : String), p.jti = some j → j.data.isEmpty = false →
      st.getActive j = some S → jwtDecode (Token.signed p) now = .ok p →
      decode_token (Token.signed p) now (revoke_all_user_tokens S st).2 true
        = .error .revoked) ∧
    (∀ (p : Claims) (now : Int) (j v : String), p.jti = some j →
      st.getActive j = some v → v ≠ S →
      decode_token (Token.signed p) now (revoke_all_user_tokens S st).2 true
        = decode_token (Token.signed p) now st true) := by
  refine ⟨rfl, ?_, ?_, ?_, ?_⟩
  · intro j hj
    exact revokeAllScan_revokes S j _ st hj (getActive_mem_keys st j S hj)
  · intro j v hj hv
    exact revokeAllScan_other_subject S j v hv _ st hj
  · intro p now j hj hne hjS hdec
    have hb := (revokeAllScan_revokes S j _ st hjS (getActive_mem_keys st j S hjS)).2
    have hex : (revoke_all_user_tokens S st).2.existsBlack j = true := by
      unfold RStore.existsBlack
      rw [show (revoke_all_user_tokens S st).2.getBlack j
          = some (REFRESH_TOKEN_EXPIRE_DAYS * 86400) from hb]
      rfl
    simp [decode_token, hdec, hj, hne, hex]
  · intro p now j v hj hjv hv
    have hbl := (revokeAllScan_other_subject S j v hv (st.active.map (fun e => e.1)) st hjv).2
    have hex : (revoke_all_user_tokens S st).2.existsBlack j = st.existsBlack j := by
      unfold RStore.existsBlack
      rw [show (revoke_all_user_tokens S st).2.getBlack j = st.getBlack j from hbl]
    cases hw : jwtDecode (Token.signed p) now with
    | error e => simp [decode_token, hw]
    | ok q =>
      have hq : q = p := jwtDecode_signed_ok p q now hw
      subst hq
      by_cases he : j.data.isEmpty
      · simp [decode_token, hw, hj, he]
      · simp [decode_token, hw, hj, he, hex]

theorem revoke_all_user_tokens_spec_witness :
    ((RStore.empty.setexActive "a" "7" 60).setexActive "b" "8" 60).getActive "a"
      = some "7" ∧
    ((RStore.empty.setexActive "a" "7" 60).setexActive "b" "8" 60).getActive "b"
      = some "8" ∧
    ("8" : String) ≠ "7" ∧
    ((revoke_all_user_tokens "7"
        ((RStore.empty.setexActive "a" "7" 60).setexActive "b" "8" 60)).2.getActive "a"
      = none ∧
     (revoke_all_user_tokens "7"
        ((RStore.empty.setexActive "a" "7" 60).setexActive "b" "8" 60)).2.getBlack "a"
      = some (REFRESH_TOKEN_EXPIRE_DAYS * 86400)) ∧
    ((revoke_all_user_tokens "7"
        ((RStore.empty.setexActive "a" "7" 60).setexActive "b" "8" 60)).2.getActiveEntry "b"
      = ((RStore.empty.setexActive "a" "7" 60).setexActive "b" "8" 60).getActiveEntry "b" ∧
     (revoke_all_user_tokens "7"
        ((RStore.empty.setexActive "a" "7" 60).setexActive "b" "8" 60)).2.getBlack "b"
      = ((RStore.empty.setexActive "a" "7" 60).setexActive "b" "8" 60).getBlack "b") :=
  ⟨by decide, by decide, by decide,
    (revoke_all_user_tokens_spec "7"
      ((RStore.empty.setexActive "a" "7" 60).setexActive "b" "8" 60)).2.1 "a" (by decide),
    (revoke_all_user_tokens_spec "7"
      ((RStore.empty.setexActive "a" "7" 60).setexActive "b" "8" 60)).2.2.1 "b" "8"
      (by decide) (by decide)⟩
